import Mathlib

/-!
Shallow embedding of the whisper-speed-test repository.

Sources embedded:
- src/benchmark_module.py : BenchmarkResult, ASRBenchmark (benchmark_function,
  calculate_wer, calculate_cer, print_comparison)
- src/uploading_video.py : FFmpegNotFoundError, download_audio
- src/whisper_transcribe.py : transcribe_with_whisper
- src/faster_whisper_transcribe.py : transcribe_with_faster_whisper

Modelling conventions: Python floats are modelled as rationals; the external
world (psutil samples, the yt-dlp downloader, the filesystem, the two ML
runtimes) is passed in as explicit environment records; a Python function that
can raise is modelled with Except, and prints relevant to the claims are
modelled as fields of the returned report.
-/

namespace WhisperSpeedTest

/-- BenchmarkResult dataclass of src/benchmark_module.py: one record per
adapter invocation. -/
structure BenchmarkResult where
  model_name : String
  load_time : ℚ
  transcribe_time : ℚ
  total_time : ℚ
  memory_used_mb : ℚ
  cpu_percent : ℚ
  transcription : String
  wer : Option ℚ := none
  cer : Option ℚ := none
deriving DecidableEq

/-- Modelled from the spec: the external jiwer library computes error rates by
a standard edit distance (Levenshtein: substitutions + deletions + insertions).
This is the textbook recursion on two token lists. -/
def lev {α : Type} [DecidableEq α] : List α → List α → Nat
  | [], ys => ys.length
  | x :: xs, [] => (x :: xs).length
  | x :: xs, y :: ys =>
    if x = y then lev xs ys
    else 1 + min (lev xs (y :: ys)) (min (lev (x :: xs) ys) (lev xs ys))
termination_by xs ys => xs.length + ys.length
decreasing_by all_goals simp_arith

/-- Modelled from the spec: jiwer tokenizes a transcript into words on spaces,
dropping empty tokens. -/
def toWords (s : String) : List String :=
  (s.splitOn " ").filter (fun w => w ≠ "")

namespace jiwer

/-- Modelled from the spec: jiwer.wer, word error rate =
(substitutions + deletions + insertions) / reference length, at word
granularity (division in ℚ; jiwer requires a non-empty reference). -/
def wer (reference hypothesis : String) : ℚ :=
  (lev (toWords reference) (toWords hypothesis) : ℚ) / ((toWords reference).length : ℚ)

/-- Modelled from the spec: jiwer.cer, character error rate = edit distance /
reference length, at character granularity. -/
def cer (reference hypothesis : String) : ℚ :=
  (lev reference.data hypothesis.data : ℚ) / (reference.data.length : ℚ)

end jiwer

/-- ASRBenchmark state: constructor arguments plus the accumulated results
list (src/benchmark_module.py lines 34-42). -/
structure ASRBenchmark where
  audio_path : String
  reference_text : Option String := none
  results : List BenchmarkResult := []

/-- ASRBenchmark.calculate_wer delegates to jiwer.wer (line 114-117). -/
def ASRBenchmark.calculate_wer (reference hypothesis : String) : ℚ :=
  jiwer.wer reference hypothesis

/-- ASRBenchmark.calculate_cer delegates to jiwer.cer (line 119-122). -/
def ASRBenchmark.calculate_cer (reference hypothesis : String) : ℚ :=
  jiwer.cer reference hypothesis

/-- A Python exception raised by an adapter call (model load or inference). -/
structure PyException where
  msg : String
deriving DecidableEq

/-- Environment samples taken by benchmark_function: resident set size in
bytes before and after the call, and the two psutil.cpu_percent samples. -/
structure SystemEnv where
  rss_before : ℚ
  rss_after : ℚ
  cpu_percent_start : ℚ
  cpu_percent_end : ℚ
deriving DecidableEq

/-- Timestamped transcription segment; Python dict with keys start, end,
text (field end is renamed stop, end being a Lean keyword). -/
structure Segment where
  start : ℚ
  stop : ℚ
  text : String
deriving DecidableEq

/-- The dict returned by both transcription adapters (src/whisper_transcribe.py
lines 57-64, src/faster_whisper_transcribe.py lines 77-85). -/
structure TranscriptionResult where
  text : String
  segments : List Segment
  load_time : ℚ
  transcribe_time : ℚ
  total_time : ℚ
  language : String
  language_probability : Option ℚ := none
deriving DecidableEq

/-- ASRBenchmark.benchmark_function (src/benchmark_module.py lines 44-112).
The adapter call is passed in as its outcome (a result dict or a raised
exception). Returns the updated benchmark state together with the outcome
observed by the caller: an uncaught adapter exception leaves the state as it
was (the append at line 103 is not reached). -/
def ASRBenchmark.benchmark_function (self : ASRBenchmark) (env : SystemEnv)
    (model_name : String) (callResult : Except PyException TranscriptionResult) :
    ASRBenchmark × Except PyException BenchmarkResult :=
  let mem_before := env.rss_before / 1024 / 1024
  match callResult with
  | .error e => (self, .error e)
  | .ok result =>
    let mem_after := env.rss_after / 1024 / 1024
    let memory_used := mem_after - mem_before
    let werCer : Option ℚ × Option ℚ :=
      match self.reference_text with
      | some ref =>
        if ref ≠ "" then
          (some (ASRBenchmark.calculate_wer ref result.text),
           some (ASRBenchmark.calculate_cer ref result.text))
        else (none, none)
      | none => (none, none)
    let benchmark_result : BenchmarkResult :=
      { model_name := model_name
        load_time := result.load_time
        transcribe_time := result.transcribe_time
        total_time := result.total_time
        memory_used_mb := memory_used
        cpu_percent := (env.cpu_percent_start + env.cpu_percent_end) / 2
        transcription := result.text
        wer := werCer.1
        cer := werCer.2 }
    ({ self with results := self.results ++ [benchmark_result] }, .ok benchmark_result)

/-- Python min(iterable, key=key) over a nonempty list: scan keeping the
current best, replacing it only on a strictly smaller key, so the first
minimum wins (src/benchmark_module.py line 143). -/
def pyMinBy (key : BenchmarkResult → ℚ) : BenchmarkResult → List BenchmarkResult → BenchmarkResult
  | best, [] => best
  | best, y :: ys => pyMinBy key (if key y < key best then y else best) ys

/-- Python TypeError, raised when min compares a None wer to a float. -/
inductive ComparisonError where
  | typeError
deriving DecidableEq

/-- Python min(results, key=lambda x: x.wer) (src/benchmark_module.py
line 147): wer is Optional, and comparing None raises TypeError. -/
def pyMinByWer : BenchmarkResult → List BenchmarkResult → Except ComparisonError BenchmarkResult
  | best, [] => .ok best
  | best, y :: ys =>
    match y.wer, best.wer with
    | some a, some b => pyMinByWer (if a < b then y else best) ys
    | _, _ => .error .typeError

/-- What print_comparison prints and computes (src/benchmark_module.py lines
124-150): insufficientData models the line printed at line 127 when fewer than
2 results exist; fastest and mostAccurate are the winners identified at lines
143 and 147; raisedTypeError models the TypeError escaping from line 147 when
records mix present and absent wer values (fastest is printed at line 144,
before that point). -/
structure ComparisonReport where
  insufficientData : Bool
  fastest : Option BenchmarkResult
  mostAccurate : Option BenchmarkResult
  raisedTypeError : Bool
deriving DecidableEq

/-- ASRBenchmark.print_comparison (src/benchmark_module.py lines 124-150).
The guard at line 126 (len(self.results) < 2) is matched as the empty and
singleton cases; the source mutates nothing, it only reads self.results and
prints. -/
def ASRBenchmark.print_comparison (self : ASRBenchmark) : ComparisonReport :=
  match self.results with
  | [] =>
    { insufficientData := true, fastest := none, mostAccurate := none,
      raisedTypeError := false }
  | [_] =>
    { insufficientData := true, fastest := none, mostAccurate := none,
      raisedTypeError := false }
  | x :: xs =>
    let fastest := pyMinBy (fun r => r.total_time) x xs
    if x.wer.isSome then
      match pyMinByWer x xs with
      | .error _ =>
        { insufficientData := false, fastest := some fastest,
          mostAccurate := none, raisedTypeError := true }
      | .ok m =>
        { insufficientData := false, fastest := some fastest,
          mostAccurate := some m, raisedTypeError := false }
    else
      { insufficientData := false, fastest := some fastest,
        mostAccurate := none, raisedTypeError := false }

/-- A pathlib.Path inside the output directory, split as stem plus suffix.
The ext field holds the suffix without its leading dot; with_suffix replaces
it. -/
structure PyPath where
  stem : String
  ext : String
deriving DecidableEq

/-- pathlib.Path.with_suffix with the new suffix given without its dot. -/
def PyPath.with_suffix (p : PyPath) (newExt : String) : PyPath :=
  { p with ext := newExt }

/-- Python str.lower, modelled character-wise (ASCII case folding, which is
all a file extension needs). -/
def strLower (s : String) : String :=
  ⟨s.data.map Char.toLower⟩

/-- A file of the output directory together with its st_mtime. -/
structure FileEntry where
  path : PyPath
  st_mtime : ℚ
deriving DecidableEq

/-- Environment observed by download_audio: whether shutil.which finds ffmpeg,
the outcome of ydl.extract_info (a raised downloader exception message, or the
ydl.prepare_filename path), and the files present in out_dir afterwards, in
directory scan order. -/
structure DlEnv where
  ffmpeg_on_path : Bool
  extract_info : Except String PyPath
  out_dir_files : List FileEntry

/-- pathlib.Path.exists, read off the out_dir listing. -/
def DlEnv.pexists (env : DlEnv) (p : PyPath) : Bool :=
  env.out_dir_files.any (fun f => decide (f.path = p))

/-- FFmpegNotFoundError of src/uploading_video.py lines 7-8, a dedicated
RuntimeError subclass. -/
structure FFmpegNotFoundError where
  msg : String
deriving DecidableEq

/-- What a call to download_audio does: lines printed, and either the raised
FFmpegNotFoundError (the only exception that escapes) or the returned
Optional path. -/
structure DlResult where
  log : List String
  outcome : Except FFmpegNotFoundError (Option PyPath)

/-- candidates[0] of sorted(candidates, key=st_mtime, reverse=True): Python
sort is stable, so this is the first entry carrying the maximal st_mtime. -/
def firstMaxMtime : FileEntry → List FileEntry → FileEntry
  | best, [] => best
  | best, y :: ys => firstMaxMtime (if best.st_mtime < y.st_mtime then y else best) ys

/-- download_audio (src/uploading_video.py lines 10-86). The ydl_opts dict
(format, outtmpl from filename_pattern, postprocessors with bitrate for mp3,
retries) only configures the external downloader, which the environment
abstracts; the mkdir at line 37 only touches the filesystem. Control flow:
raise FFmpegNotFoundError when ffmpeg is absent from PATH (before the try
block, so it propagates); inside the try, any downloader exception is caught,
logged and turned into None; otherwise resolve the produced file by exact
expected name, then by the pre-postprocessing name when its suffix already
matches case-insensitively, then by the newest file with the target extension
in out_dir, else None. -/
def download_audio (env : DlEnv) (ext : String) : DlResult :=
  if env.ffmpeg_on_path = false then
    { log := [],
      outcome := .error ⟨"ffmpeg не найден в PATH. Установите ffmpeg и повторите попытку."⟩ }
  else
    match env.extract_info with
    | .error e => { log := ["Ошибка загрузки: " ++ e], outcome := .ok none }
    | .ok temp_path =>
      let final_path := temp_path.with_suffix ext
      if env.pexists final_path then
        { log := [], outcome := .ok (some final_path) }
      else if env.pexists temp_path && decide (strLower temp_path.ext = strLower ext) then
        { log := [], outcome := .ok (some temp_path) }
      else
        match env.out_dir_files.filter (fun f => decide (f.path.ext = ext)) with
        | [] => { log := [], outcome := .ok none }
        | c :: cs => { log := [], outcome := .ok (some (firstMaxMtime c cs).path) }

/-- Environment of transcribe_with_whisper: the four time.time() samples and
what the whisper runtime returns (src/whisper_transcribe.py lines 33-55). -/
structure WhisperEngineEnv where
  load_start : ℚ
  load_end : ℚ
  transcribe_start : ℚ
  transcribe_end : ℚ
  result_text : String
  result_segments : List Segment
  result_language : String
deriving DecidableEq

/-- transcribe_with_whisper (src/whisper_transcribe.py lines 7-64): times the
model load and the inference, strips the text, and returns the shared record
with total_time = load_time + transcribe_time. -/
def transcribe_with_whisper (env : WhisperEngineEnv) : TranscriptionResult :=
  let load_time := env.load_end - env.load_start
  let transcribe_time := env.transcribe_end - env.transcribe_start
  { text := env.result_text.trim
    segments := env.result_segments
    load_time := load_time
    transcribe_time := transcribe_time
    total_time := load_time + transcribe_time
    language := env.result_language
    language_probability := none }

/-- Environment of transcribe_with_faster_whisper: the four time.time()
samples and what the faster-whisper runtime returns
(src/faster_whisper_transcribe.py lines 32-75). -/
structure FasterWhisperEngineEnv where
  load_start : ℚ
  load_end : ℚ
  transcribe_start : ℚ
  transcribe_end : ℚ
  engine_segments : List Segment
  info_language : String
  info_language_probability : ℚ
deriving DecidableEq

/-- transcribe_with_faster_whisper (src/faster_whisper_transcribe.py lines
13-85): times the model load and the inference, concatenates segment texts
with trailing spaces then strips, rebuilds the segment dicts, and returns the
shared record with total_time = load_time + transcribe_time. -/
def transcribe_with_faster_whisper (env : FasterWhisperEngineEnv) : TranscriptionResult :=
  let load_time := env.load_end - env.load_start
  let full_text := env.engine_segments.foldl (fun acc s => acc ++ s.text ++ " ") ""
  let segments_list := env.engine_segments.map
    (fun s => ({ start := s.start, stop := s.stop, text := s.text } : Segment))
  let transcribe_time := env.transcribe_end - env.transcribe_start
  { text := full_text.trim
    segments := segments_list
    load_time := load_time
    transcribe_time := transcribe_time
    total_time := load_time + transcribe_time
    language := env.info_language
    language_probability := some env.info_language_probability }

/-! Concrete sample data used to exercise the definitions. -/

/-- A benchmark record with a given name, total time and error rates. -/
def sampleRecord (name : String) (t : ℚ) (w : Option ℚ) : BenchmarkResult :=
  { model_name := name, load_time := 1, transcribe_time := 2, total_time := t,
    memory_used_mb := 0, cpu_percent := 0, transcription := "", wer := w, cer := w }

/-- First record of the worked example of the spec: total_time 5.0. -/
def rec5 : BenchmarkResult := sampleRecord "Faster-Whisper (base, int8, CPU)" 5 none

/-- Second record of the worked example of the spec: total_time 2.0. -/
def rec2 : BenchmarkResult := sampleRecord "Whisper OpenAI (base, CPU)" 2 none

/-- Third record of the worked example of the spec: total_time 8.0. -/
def rec8 : BenchmarkResult := sampleRecord "Vosk (small, CPU)" 8 none

/-- A record with wer 1/2, for exercising the most-accurate selection. -/
def recW1 : BenchmarkResult := sampleRecord "A" 5 (some (1/2))

/-- A record with wer 1/4, for exercising the most-accurate selection. -/
def recW2 : BenchmarkResult := sampleRecord "B" 2 (some (1/4))

/-- The pre-postprocessing file name the downloader reports, with an
upper-case suffix. -/
def tempMP3 : PyPath := { stem := "a", ext := "MP3" }

/-- Another file of the output directory, carrying the target extension and a
later modification time. -/
def otherMp3 : PyPath := { stem := "b", ext := "mp3" }

/-- Output-directory state where the exact expected name a.mp3 is absent,
a.MP3 (mtime 1) is the downloader name, and b.mp3 (mtime 5) is the newest
file with the target extension. -/
def cexEnv : DlEnv :=
  { ffmpeg_on_path := true
    extract_info := .ok tempMP3
    out_dir_files := [⟨tempMP3, 1⟩, ⟨otherMp3, 5⟩] }

/-- Environment with ffmpeg absent from PATH. -/
def noFfmpegEnv : DlEnv :=
  { ffmpeg_on_path := false
    extract_info := .ok tempMP3
    out_dir_files := [] }

/-- Environment where ffmpeg is present but the downloader raises. -/
def dlFailEnv : DlEnv :=
  { ffmpeg_on_path := true
    extract_info := .error "HTTP Error 403"
    out_dir_files := [] }

/-- Environment exercising the fallback resolution: the downloader reports
t.webm, no t.mp3 exists, and the directory holds two mp3 files of which
c.mp3 is the newest. -/
def fallbackEnv : DlEnv :=
  { ffmpeg_on_path := true
    extract_info := .ok { stem := "t", ext := "webm" }
    out_dir_files := [⟨⟨"t", "mp3"⟩, 3⟩, ⟨⟨"c", "mp3"⟩, 7⟩] }

/-! Helper lemmas about the scan-style minimum and maximum selections. -/

theorem pyMinBy_mem (key : BenchmarkResult → ℚ) (x : BenchmarkResult)
    (xs : List BenchmarkResult) : pyMinBy key x xs ∈ x :: xs := by
  induction xs generalizing x with
  | nil => simp [pyMinBy]
  | cons y ys ih =>
    rw [pyMinBy]
    rcases List.mem_cons.mp (ih (if key y < key x then y else x)) with h1 | h1
    · rw [h1]
      by_cases hc : key y < key x
      · rw [if_pos hc]
        exact List.mem_cons_of_mem _ (List.mem_cons_self _ _)
      · rw [if_neg hc]
        exact List.mem_cons_self _ _
    · exact List.mem_cons_of_mem _ (List.mem_cons_of_mem _ h1)

theorem pyMinBy_le (key : BenchmarkResult → ℚ) (x : BenchmarkResult)
    (xs : List BenchmarkResult) :
    ∀ r ∈ x :: xs, key (pyMinBy key x xs) ≤ key r := by
  induction xs generalizing x with
  | nil =>
    intro r hr
    rw [List.mem_singleton] at hr
    subst hr
    exact le_refl _
  | cons y ys ih =>
    intro r hr
    rw [pyMinBy]
    have hx : key (if key y < key x then y else x) ≤ key x := by
      by_cases hc : key y < key x
      · rw [if_pos hc]; exact le_of_lt hc
      · rw [if_neg hc]
    have hy : key (if key y < key x then y else x) ≤ key y := by
      by_cases hc : key y < key x
      · rw [if_pos hc]
      · rw [if_neg hc]; exact le_of_not_lt hc
    have hb := ih (if key y < key x then y else x) _ (List.mem_cons_self _ _)
    rcases List.mem_cons.mp hr with h1 | h1
    · subst h1; exact le_trans hb hx
    · rcases List.mem_cons.mp h1 with h2 | h2
      · subst h2; exact le_trans hb hy
      · exact ih _ r (List.mem_cons_of_mem _ h2)

theorem pyMinByWer_eq_pyMinBy (x : BenchmarkResult) (xs : List BenchmarkResult)
    (hall : ∀ r ∈ x :: xs, r.wer.isSome) :
    pyMinByWer x xs = .ok (pyMinBy (fun r => r.wer.getD 0) x xs) := by
  induction xs generalizing x with
  | nil => rfl
  | cons y ys ih =>
    obtain ⟨a, ha⟩ := Option.isSome_iff_exists.mp (hall y (by simp))
    obtain ⟨b, hb⟩ := Option.isSome_iff_exists.mp (hall x (by simp))
    have hall' : ∀ r ∈ (if a < b then y else x) :: ys, r.wer.isSome := by
      intro r hr
      rcases List.mem_cons.mp hr with h1 | h1
      · subst h1
        by_cases hc : a < b
        · rw [if_pos hc]; exact hall y (by simp)
        · rw [if_neg hc]; exact hall x (by simp)
      · exact hall r (by simp [h1])
    rw [pyMinByWer, ha, hb]
    rw [pyMinBy]
    have hkey : (if (fun r => r.wer.getD 0) y < (fun r => r.wer.getD 0) x then y else x)
        = (if a < b then y else x) := by
      simp only [ha, hb, Option.getD_some]
    rw [hkey]
    exact ih _ hall'

theorem firstMaxMtime_mem (x : FileEntry) (xs : List FileEntry) :
    firstMaxMtime x xs ∈ x :: xs := by
  induction xs generalizing x with
  | nil => simp [firstMaxMtime]
  | cons y ys ih =>
    rw [firstMaxMtime]
    rcases List.mem_cons.mp (ih (if x.st_mtime < y.st_mtime then y else x)) with h1 | h1
    · rw [h1]
      by_cases hc : x.st_mtime < y.st_mtime
      · rw [if_pos hc]
        exact List.mem_cons_of_mem _ (List.mem_cons_self _ _)
      · rw [if_neg hc]
        exact List.mem_cons_self _ _
    · exact List.mem_cons_of_mem _ (List.mem_cons_of_mem _ h1)

theorem firstMaxMtime_ge (x : FileEntry) (xs : List FileEntry) :
    ∀ d ∈ x :: xs, d.st_mtime ≤ (firstMaxMtime x xs).st_mtime := by
  induction xs generalizing x with
  | nil =>
    intro d hd
    rw [List.mem_singleton] at hd
    subst hd
    exact le_refl _
  | cons y ys ih =>
    intro d hd
    rw [firstMaxMtime]
    have hx : x.st_mtime ≤ (if x.st_mtime < y.st_mtime then y else x).st_mtime := by
      by_cases hc : x.st_mtime < y.st_mtime
      · rw [if_pos hc]; exact le_of_lt hc
      · rw [if_neg hc]
    have hy : y.st_mtime ≤ (if x.st_mtime < y.st_mtime then y else x).st_mtime := by
      by_cases hc : x.st_mtime < y.st_mtime
      · rw [if_pos hc]
      · rw [if_neg hc]; exact le_of_not_lt hc
    have hb := ih (if x.st_mtime < y.st_mtime then y else x) _ (List.mem_cons_self _ _)
    rcases List.mem_cons.mp hd with h1 | h1
    · subst h1; exact le_trans hx hb
    · rcases List.mem_cons.mp h1 with h2 | h2
      · subst h2; exact le_trans hy hb
      · exact ih _ d (List.mem_cons_of_mem _ h2)

theorem lev_self {α : Type} [DecidableEq α] (l : List α) : lev l l = 0 := by
  induction l with
  | nil => simp [lev]
  | cons x xs ih => simp [lev, ih]

theorem print_comparison_cons₂ (ap : String) (rt : Option String)
    (x y : BenchmarkResult) (ys : List BenchmarkResult) :
    ASRBenchmark.print_comparison ⟨ap, rt, x :: y :: ys⟩ =
      if x.wer.isSome then
        match pyMinByWer x (y :: ys) with
        | .error _ =>
          ⟨false, some (pyMinBy (fun r => r.total_time) x (y :: ys)), none, true⟩
        | .ok m =>
          ⟨false, some (pyMinBy (fun r => r.total_time) x (y :: ys)), some m, false⟩
      else
        ⟨false, some (pyMinBy (fun r => r.total_time) x (y :: ys)), none, false⟩ := rfl

/-! Claim theorems. -/

/-- C1: with at least 2 accumulated records, print_comparison identifies as
fastest a record of the list whose total_time is minimal over the list; on
the record list with total times 5.0, 2.0, 8.0 it picks the second record. -/
theorem print_comparison_fastest_is_min_total_time (self : ASRBenchmark)
    (h2 : 2 ≤ self.results.length) :
    (∃ f, (ASRBenchmark.print_comparison self).fastest = some f ∧
       f ∈ self.results ∧ ∀ r ∈ self.results, f.total_time ≤ r.total_time) ∧
    (ASRBenchmark.print_comparison
      { audio_path := "test_audio.wav", reference_text := none,
        results := [rec5, rec2, rec8] }).fastest = some rec2 := by
  refine ⟨?_, by decide⟩
  obtain ⟨ap, rt, rs⟩ := self
  cases rs with
  | nil => simp at h2
  | cons x t =>
    cases t with
    | nil => simp at h2
    | cons y ys =>
      refine ⟨pyMinBy (fun r => r.total_time) x (y :: ys), ?_, ?_, ?_⟩
      · rw [print_comparison_cons₂]
        by_cases hw : x.wer.isSome
        · rw [if_pos hw]
          cases hM : pyMinByWer x (y :: ys) with
          | error e => rfl
          | ok m => rfl
        · rw [if_neg hw]
      · exact pyMinBy_mem _ x (y :: ys)
      · exact pyMinBy_le _ x (y :: ys)

/-- C1 witness: the spec's worked example with total times 5.0, 2.0, 8.0. -/
theorem print_comparison_fastest_witness :
    (∃ f, (ASRBenchmark.print_comparison
        { audio_path := "test_audio.wav", reference_text := none,
          results := [rec5, rec2, rec8] }).fastest = some f ∧
       f ∈ [rec5, rec2, rec8] ∧
       ∀ r ∈ [rec5, rec2, rec8], f.total_time ≤ r.total_time) ∧
    (ASRBenchmark.print_comparison
      { audio_path := "test_audio.wav", reference_text := none,
        results := [rec5, rec2, rec8] }).fastest = some rec2 :=
  print_comparison_fastest_is_min_total_time
    { audio_path := "test_audio.wav", reference_text := none,
      results := [rec5, rec2, rec8] } (by decide)

/-- C2: with fewer than 2 accumulated records, print_comparison does not
crash, only prints the insufficient-data message, and identifies neither a
fastest nor a most accurate record; it reads self.results without changing
it. -/
theorem print_comparison_insufficient_data (self : ASRBenchmark)
    (h : self.results.length < 2) :
    ASRBenchmark.print_comparison self =
      { insufficientData := true, fastest := none, mostAccurate := none,
        raisedTypeError := false } := by
  obtain ⟨ap, rt, rs⟩ := self
  cases rs with
  | nil => rfl
  | cons a t =>
    cases t with
    | nil => rfl
    | cons b l =>
      exfalso
      simp at h
      omega

/-- C2 witness: a single-record benchmark state. -/
theorem print_comparison_insufficient_data_witness :
    ASRBenchmark.print_comparison
      { audio_path := "test_audio.wav", reference_text := none,
        results := [rec5] } =
      { insufficientData := true, fastest := none, mostAccurate := none,
        raisedTypeError := false } :=
  print_comparison_insufficient_data
    { audio_path := "test_audio.wav", reference_text := none,
      results := [rec5] } (by decide)

/-- C8: with at least 2 accumulated records all carrying a computed word
error rate, print_comparison identifies as most accurate a record of the list
whose wer is minimal over the list (and raises no TypeError). -/
theorem print_comparison_most_accurate_is_min_wer (self : ASRBenchmark)
    (h2 : 2 ≤ self.results.length)
    (hall : ∀ r ∈ self.results, r.wer.isSome) :
    ∃ m, (ASRBenchmark.print_comparison self).mostAccurate = some m ∧
      m ∈ self.results ∧
      (ASRBenchmark.print_comparison self).raisedTypeError = false ∧
      ∀ r ∈ self.results, m.wer.getD 0 ≤ r.wer.getD 0 := by
  obtain ⟨ap, rt, rs⟩ := self
  cases rs with
  | nil => simp at h2
  | cons x t =>
    cases t with
    | nil => simp at h2
    | cons y ys =>
      have hallc : ∀ r ∈ x :: y :: ys, r.wer.isSome := hall
      have hw : x.wer.isSome := hallc x (List.mem_cons_self _ _)
      have hM := pyMinByWer_eq_pyMinBy x (y :: ys) hallc
      refine ⟨pyMinBy (fun r => r.wer.getD 0) x (y :: ys), ?_, ?_, ?_, ?_⟩
      · rw [print_comparison_cons₂, if_pos hw, hM]
      · exact pyMinBy_mem _ x (y :: ys)
      · rw [print_comparison_cons₂, if_pos hw, hM]
      · exact pyMinBy_le _ x (y :: ys)

/-- C8 witness: two records with word error rates 1/2 and 1/4. -/
theorem print_comparison_most_accurate_witness :
    ∃ m, (ASRBenchmark.print_comparison
        { audio_path := "test_audio.wav", reference_text := some "ref",
          results := [recW1, recW2] }).mostAccurate = some m ∧
      m ∈ [recW1, recW2] ∧
      (ASRBenchmark.print_comparison
        { audio_path := "test_audio.wav", reference_text := some "ref",
          results := [recW1, recW2] }).raisedTypeError = false ∧
      ∀ r ∈ [recW1, recW2], m.wer.getD 0 ≤ r.wer.getD 0 :=
  print_comparison_most_accurate_is_min_wer
    { audio_path := "test_audio.wav", reference_text := some "ref",
      results := [recW1, recW2] } (by decide) (by decide)

/-- C3: when ffmpeg is not resolvable on PATH, download_audio raises the
dedicated FFmpegNotFoundError (it is the only exception constructor that can
escape the function) and in particular never reaches a return, so the
condition is not converted into a null result. -/
theorem download_audio_raises_when_ffmpeg_missing (env : DlEnv) (ext : String)
    (h : env.ffmpeg_on_path = false) :
    (download_audio env ext).outcome =
      .error ⟨"ffmpeg не найден в PATH. Установите ffmpeg и повторите попытку."⟩ ∧
    ∀ p : Option PyPath, (download_audio env ext).outcome ≠ .ok p := by
  have hd : download_audio env ext =
      { log := [],
        outcome := .error ⟨"ffmpeg не найден в PATH. Установите ffmpeg и повторите попытку."⟩ } := by
    unfold download_audio
    rw [h]
    simp
  refine ⟨by rw [hd], ?_⟩
  intro p hp
  rw [hd] at hp
  exact Except.noConfusion hp

/-- C3 witness: an environment whose PATH lacks ffmpeg. -/
theorem download_audio_raises_when_ffmpeg_missing_witness :
    (download_audio noFfmpegEnv "mp3").outcome =
      .error ⟨"ffmpeg не найден в PATH. Установите ffmpeg и повторите попытку."⟩ ∧
    ∀ p : Option PyPath, (download_audio noFfmpegEnv "mp3").outcome ≠ .ok p :=
  download_audio_raises_when_ffmpeg_missing noFfmpegEnv "mp3" rfl

/-- C4: when ffmpeg is present but the downloader itself raises, the error is
caught inside download_audio, logged to standard output, and the call returns
None instead of propagating the exception. -/
theorem download_audio_downloader_error_returns_none (env : DlEnv) (ext msg : String)
    (hff : env.ffmpeg_on_path = true) (herr : env.extract_info = .error msg) :
    download_audio env ext =
      { log := ["Ошибка загрузки: " ++ msg], outcome := .ok none } := by
  unfold download_audio
  rw [hff, herr]
  simp

/-- C4 witness: a downloader failure with a concrete error message. -/
theorem download_audio_downloader_error_witness :
    download_audio dlFailEnv "mp3" =
      { log := ["Ошибка загрузки: " ++ "HTTP Error 403"], outcome := .ok none } :=
  download_audio_downloader_error_returns_none dlFailEnv "mp3" "HTTP Error 403" rfl rfl

/-- C5 counterexample: with downloader name a.MP3 (mtime 1) present, exact
expected name a.mp3 absent, and b.mp3 (mtime 5) the newest file with the
target extension, download_audio returns a.MP3 rather than the most recently
modified file with the target extension, refuting the claim as stated. -/
theorem download_audio_fallback_counterexample :
    cexEnv.pexists (tempMP3.with_suffix "mp3") = false ∧
    (cexEnv.out_dir_files.filter fun f => decide (f.path.ext = "mp3"))
      = [⟨otherMp3, 5⟩] ∧
    (download_audio cexEnv "mp3").outcome = .ok (some tempMP3) ∧
    tempMP3 ≠ otherMp3 :=
  ⟨by decide, by decide, rfl, by decide⟩

/-- C5 (amended): on a successful download, the produced file is resolved by
exact expected name; failing that, when the downloader's own output name
exists and its suffix equals the target extension case-insensitively, that
file is returned (even if a newer file with the target extension exists);
only otherwise is the most recently modified file with the target extension
returned, and None when no such file exists. -/
theorem download_audio_file_resolution (env : DlEnv) (ext : String) (temp : PyPath)
    (hff : env.ffmpeg_on_path = true) (hok : env.extract_info = .ok temp) :
    (env.pexists (temp.with_suffix ext) = true →
       (download_audio env ext).outcome = .ok (some (temp.with_suffix ext))) ∧
    (env.pexists (temp.with_suffix ext) = false →
       (env.pexists temp && decide (strLower temp.ext = strLower ext)) = true →
       (download_audio env ext).outcome = .ok (some temp)) ∧
    (env.pexists (temp.with_suffix ext) = false →
       (env.pexists temp && decide (strLower temp.ext = strLower ext)) = false →
       ((env.out_dir_files.filter fun f => decide (f.path.ext = ext)) = [] →
          (download_audio env ext).outcome = .ok none) ∧
       (∀ c cs,
          (env.out_dir_files.filter fun f => decide (f.path.ext = ext)) = c :: cs →
          ∃ m ∈ c :: cs, (download_audio env ext).outcome = .ok (some m.path) ∧
            ∀ d ∈ c :: cs, d.st_mtime ≤ m.st_mtime)) := by
  have hd : download_audio env ext =
      (if env.pexists (temp.with_suffix ext) then
        { log := [], outcome := .ok (some (temp.with_suffix ext)) }
      else if env.pexists temp && decide (strLower temp.ext = strLower ext) then
        { log := [], outcome := .ok (some temp) }
      else
        match env.out_dir_files.filter (fun f => decide (f.path.ext = ext)) with
        | [] => { log := [], outcome := .ok none }
        | c :: cs => { log := [], outcome := .ok (some (firstMaxMtime c cs).path) }) := by
    unfold download_audio
    rw [hff, hok]
    simp
  refine ⟨?_, ?_, ?_⟩
  · intro h1
    rw [hd, if_pos h1]
  · intro h1 h2
    rw [hd, if_neg (by simp [h1]), if_pos h2]
  · intro h1 h2
    rw [hd, if_neg (by simp [h1]), if_neg (by simp [h2])]
    constructor
    · intro hnil
      rw [hnil]
    · intro c cs hcs
      rw [hcs]
      exact ⟨firstMaxMtime c cs, firstMaxMtime_mem c cs, rfl, firstMaxMtime_ge c cs⟩

/-- C5 witness: the downloader reports t.webm, no t.mp3 exists, and c.mp3 is
the newest of the two mp3 files in the output directory. -/
theorem download_audio_file_resolution_witness :
    (fallbackEnv.pexists (PyPath.with_suffix ⟨"t", "webm"⟩ "mp3") = true →
       (download_audio fallbackEnv "mp3").outcome =
         .ok (some (PyPath.with_suffix ⟨"t", "webm"⟩ "mp3"))) ∧
    (fallbackEnv.pexists (PyPath.with_suffix ⟨"t", "webm"⟩ "mp3") = false →
       (fallbackEnv.pexists ⟨"t", "webm"⟩ &&
          decide (strLower (PyPath.ext ⟨"t", "webm"⟩) = strLower "mp3")) = true →
       (download_audio fallbackEnv "mp3").outcome = .ok (some ⟨"t", "webm"⟩)) ∧
    (fallbackEnv.pexists (PyPath.with_suffix ⟨"t", "webm"⟩ "mp3") = false →
       (fallbackEnv.pexists ⟨"t", "webm"⟩ &&
          decide (strLower (PyPath.ext ⟨"t", "webm"⟩) = strLower "mp3")) = false →
       ((fallbackEnv.out_dir_files.filter fun f => decide (f.path.ext = "mp3")) = [] →
          (download_audio fallbackEnv "mp3").outcome = .ok none) ∧
       (∀ c cs,
          (fallbackEnv.out_dir_files.filter fun f => decide (f.path.ext = "mp3")) = c :: cs →
          ∃ m ∈ c :: cs, (download_audio fallbackEnv "mp3").outcome = .ok (some m.path) ∧
            ∀ d ∈ c :: cs, d.st_mtime ≤ m.st_mtime)) :=
  download_audio_file_resolution fallbackEnv "mp3" ⟨"t", "webm"⟩ rfl rfl

/-- C6: for a non-empty reference and any hypothesis, calculate_wer and
calculate_cer (edit distance over reference length, at word and character
granularity) are non-negative, and both are exactly 0 when the hypothesis
equals the reference. -/
theorem calculate_error_rates_nonneg_and_zero_on_match (reference hypothesis : String)
    (h : reference ≠ "") :
    0 ≤ ASRBenchmark.calculate_wer reference hypothesis ∧
    0 ≤ ASRBenchmark.calculate_cer reference hypothesis ∧
    ASRBenchmark.calculate_wer reference reference = 0 ∧
    ASRBenchmark.calculate_cer reference reference = 0 := by
  refine ⟨?_, ?_, ?_, ?_⟩
  · unfold ASRBenchmark.calculate_wer jiwer.wer
    exact div_nonneg (Nat.cast_nonneg _) (Nat.cast_nonneg _)
  · unfold ASRBenchmark.calculate_cer jiwer.cer
    exact div_nonneg (Nat.cast_nonneg _) (Nat.cast_nonneg _)
  · unfold ASRBenchmark.calculate_wer jiwer.wer
    rw [lev_self]
    simp
  · unfold ASRBenchmark.calculate_cer jiwer.cer
    rw [lev_self]
    simp

/-- C6 witness: reference "ab cd" against hypothesis "x y". -/
theorem calculate_error_rates_witness :
    ("ab cd" ≠ "") ∧
    (0 ≤ ASRBenchmark.calculate_wer "ab cd" "x y" ∧
     0 ≤ ASRBenchmark.calculate_cer "ab cd" "x y" ∧
     ASRBenchmark.calculate_wer "ab cd" "ab cd" = 0 ∧
     ASRBenchmark.calculate_cer "ab cd" "ab cd" = 0) :=
  ⟨by decide, calculate_error_rates_nonneg_and_zero_on_match "ab cd" "x y" (by decide)⟩

/-- C7: an adapter call that raises propagates uncaught to the caller of
benchmark_function and the accumulated record list is left unextended. -/
theorem benchmark_function_propagates_exception (self : ASRBenchmark)
    (env : SystemEnv) (model_name : String) (e : PyException) :
    self.benchmark_function env model_name (.error e) = (self, .error e) := rfl

/-- C9: on a successful adapter call, exactly one record is appended at the
end of the list; its timing fields are copied from the adapter result, its
cpu_percent is the mean of the two cpu samples, and its memory_used_mb is the
resident-set-size delta converted to MB. -/
theorem benchmark_function_record_fields (self : ASRBenchmark) (env : SystemEnv)
    (model_name : String) (result : TranscriptionResult) :
    ∃ rec, self.benchmark_function env model_name (.ok result) =
        ({ self with results := self.results ++ [rec] }, .ok rec) ∧
      rec.load_time = result.load_time ∧
      rec.transcribe_time = result.transcribe_time ∧
      rec.total_time = result.total_time ∧
      rec.transcription = result.text ∧
      rec.model_name = model_name ∧
      rec.cpu_percent = (env.cpu_percent_start + env.cpu_percent_end) / 2 ∧
      rec.memory_used_mb = env.rss_after / 1024 / 1024 - env.rss_before / 1024 / 1024 :=
  ⟨_, rfl, rfl, rfl, rfl, rfl, rfl, rfl, rfl⟩

/-- C10: both transcription adapters return a record whose total_time equals
load_time plus transcribe_time. -/
theorem adapters_total_time_eq_load_plus_transcribe
    (ew : WhisperEngineEnv) (ef : FasterWhisperEngineEnv) :
    (transcribe_with_whisper ew).total_time =
      (transcribe_with_whisper ew).load_time +
        (transcribe_with_whisper ew).transcribe_time ∧
    (transcribe_with_faster_whisper ef).total_time =
      (transcribe_with_faster_whisper ef).load_time +
        (transcribe_with_faster_whisper ef).transcribe_time :=
  ⟨rfl, rfl⟩

end WhisperSpeedTest
